import Mathlib

/-!
# Tetracore oscillation engine: shallow embedding and verification

This file embeds the oscillation engine of the repository
(`src/particle_oscillation/backend_python/oscillation_engine.py`, the
module both server variants duplicate) into Lean and settles the frozen
claims about it.

Modelling conventions:
* Python floats are modelled as real numbers (`ℝ`).
* The per-oscillator Gaussian noise draws of a tick are modelled as an
  input stream `noises : ℕ → ℝ` giving, for the i-th oscillator in
  registry order, the factor `n` drawn from `Normal(1, environmental_noise)`
  (the source computes `1.0 + np.random.normal(0, σ)`).
* Wall-clock reads (`time.time()`) are modelled as an explicit `now : ℝ`
  argument.
* The Python `dict` registry is modelled as an insertion-ordered
  association list; assignment to an existing key replaces the value in
  place, otherwise appends.
* The nested `for i / for j in range(i+1, n)` loops of
  `_apply_global_coupling` are modelled by a head-against-rest pass
  (`coupleWithRest`) iterated down the list (`couplePassAux`, driven by a
  fuel argument equal to the list length, which always suffices).
-/

open Real

noncomputable section

namespace Tetracore

/-- Four-dimensional state vector for the tetrahedron oscillation
(source class `FourDimensionalState`). -/
structure FourDimensionalState where
  w1_projection : ℝ
  w2_energy : ℝ
  w3_spin : ℝ
  w4_mass : ℝ

/-- 4D magnitude of the state vector (source `FourDimensionalState.magnitude`). -/
def magnitude (s : FourDimensionalState) : ℝ :=
  Real.sqrt (s.w1_projection ^ 2 + s.w2_energy ^ 2 + s.w3_spin ^ 2 + s.w4_mass ^ 2)

/-- Parameters controlling the oscillation (source dataclass
`OscillationParameters`). -/
structure OscillationParameters where
  base_frequency : ℝ
  amplitude_w1 : ℝ
  amplitude_w2 : ℝ
  amplitude_w3 : ℝ
  amplitude_w4 : ℝ
  phase_w1 : ℝ
  phase_w2 : ℝ
  phase_w3 : ℝ
  phase_w4 : ℝ
  damping_factor : ℝ
  coupling_strength : ℝ

/-- The dataclass defaults of `OscillationParameters`. -/
def defaultParams : OscillationParameters :=
  { base_frequency := 1
    amplitude_w1 := 1
    amplitude_w2 := 1.5
    amplitude_w3 := 0.8
    amplitude_w4 := 1.2
    phase_w1 := 0
    phase_w2 := π / 4
    phase_w3 := π / 2
    phase_w4 := 3 * π / 4
    damping_factor := 0.98
    coupling_strength := 0.1 }

/-- A single tetrahedron oscillator (source class `TetrahedronOscillator`;
wall-clock `creation_time` and the unused per-oscillator `dt` field are
omitted, every field the engine reads or writes is kept). -/
structure TetrahedronOscillator where
  particle_id : String
  params : OscillationParameters
  current_time : ℝ
  current_state : FourDimensionalState
  state_history : List (ℝ × FourDimensionalState)
  stability_factor : ℝ
  energy_total : ℝ
  phase_coherence : ℝ

/-- Oscillator construction (source `TetrahedronOscillator.__init__`). -/
def initOsc (particle_id : String) (params : OscillationParameters) :
    TetrahedronOscillator :=
  { particle_id := particle_id
    params := params
    current_time := 0
    current_state := ⟨0, 1, 0, 1⟩
    state_history := []
    stability_factor := 1
    energy_total := 0
    phase_coherence := 1 }

/-- History capacity (source `self.max_history = 1000`). -/
def max_history : ℕ := 1000

/-- Stability factor of a state (source
`TetrahedronOscillator._calculate_stability`, the ε-guarded division
variant of the engine module). -/
def calculate_stability (s : FourDimensionalState) : ℝ :=
  let state_magnitude := magnitude s
  let r1 := |s.w1_projection| / (state_magnitude + 1e-6)
  let r2 := |s.w2_energy| / (state_magnitude + 1e-6)
  let r3 := |s.w3_spin| / (state_magnitude + 1e-6)
  let r4 := |s.w4_mass| / (state_magnitude + 1e-6)
  let balance_factor := 1 - |0.25 - r1| - |0.25 - r2| - |0.25 - r3| - |0.25 - r4|
  max 0 (min 1 balance_factor)

/-- Total energy of a state (source
`TetrahedronOscillator._calculate_total_energy`). -/
def calculate_total_energy (s : FourDimensionalState) (coupling_strength : ℝ) : ℝ :=
  let kinetic := 0.5 * (s.w1_projection ^ 2 + s.w2_energy ^ 2 + s.w3_spin ^ 2 + s.w4_mass ^ 2)
  let potential := 0.25 * coupling_strength *
    (s.w1_projection * s.w2_energy + s.w2_energy * s.w3_spin +
     s.w3_spin * s.w4_mass + s.w4_mass * s.w1_projection)
  kinetic + potential

/-- Per-pair contribution to the phase-difference estimate: the sum over
the four axes of the absolute differences between two states. -/
def stateDiff (prev curr : FourDimensionalState) : ℝ :=
  |curr.w1_projection - prev.w1_projection| + |curr.w2_energy - prev.w2_energy| +
    |curr.w3_spin - prev.w3_spin| + |curr.w4_mass - prev.w4_mass|

/-- The list of `stateDiff`s of each consecutive pair of a list of states
(the `for i in range(1, len(recent_states))` loop of the source). -/
def consecDiffs : List FourDimensionalState → List ℝ
  | a :: b :: rest => stateDiff a b :: consecDiffs (b :: rest)
  | _ => []

/-- The last `n` elements of a list (Python slice `l[-n:]` for `n ≥ 1`). -/
def lastN (n : ℕ) (l : List α) : List α :=
  l.drop (l.length - n)

/-- Phase coherence from the history buffer (source
`TetrahedronOscillator._calculate_phase_coherence`). -/
def calculate_phase_coherence (state_history : List (ℝ × FourDimensionalState)) : ℝ :=
  if state_history.length < 10 then 1
  else
    let recent_states := lastN 10 state_history
    let phase_diffs := consecDiffs (recent_states.map Prod.snd)
    let avg_diff := phase_diffs.sum / (phase_diffs.length : ℝ)
    max 0 (min 1 (1 - avg_diff / 4))

/-- Append the current sample and evict beyond capacity (source
`TetrahedronOscillator._store_state_history`). -/
def store_state_history (o : TetrahedronOscillator) : TetrahedronOscillator :=
  let h := o.state_history ++ [(o.current_time, o.current_state)]
  { o with state_history := if max_history < h.length then lastN max_history h else h }

/-- One advance step (source `TetrahedronOscillator.update_oscillations`):
base harmonics, cross-axis coupling read from the prior state, uniform
damping, derived-scalar recomputation, history append. -/
def update_oscillations (o : TetrahedronOscillator) (dt : ℝ) : TetrahedronOscillator :=
  let t := o.current_time + dt
  let w1_base := o.params.amplitude_w1 *
    Real.sin (2 * π * o.params.base_frequency * t + o.params.phase_w1)
  let w2_base := o.params.amplitude_w2 *
    Real.sin (2 * π * o.params.base_frequency * 1.2 * t + o.params.phase_w2)
  let w3_base := o.params.amplitude_w3 *
    Real.sin (2 * π * o.params.base_frequency * 0.8 * t + o.params.phase_w3)
  let w4_base := o.params.amplitude_w4 *
    Real.sin (2 * π * o.params.base_frequency * 1.1 * t + o.params.phase_w4)
  let coupling := o.params.coupling_strength
  let w1_coupled := w1_base + coupling * (o.current_state.w2_energy * 0.3 +
    o.current_state.w4_mass * 0.2)
  let w2_coupled := w2_base + coupling * (o.current_state.w3_spin * 0.4 +
    o.current_state.w1_projection * 0.1)
  let w3_coupled := w3_base + coupling * (o.current_state.w2_energy * 0.5) +
    0.3 * Real.sin (6 * π * o.params.base_frequency * t)
  let w4_coupled := w4_base + coupling * (o.current_state.w1_projection * 0.15)
  let damping := o.params.damping_factor
  let new_state : FourDimensionalState :=
    ⟨w1_coupled * damping, w2_coupled * damping, w3_coupled * damping, w4_coupled * damping⟩
  store_state_history
    { o with
        current_time := t
        current_state := new_state
        stability_factor := calculate_stability new_state
        energy_total := calculate_total_energy new_state o.params.coupling_strength
        phase_coherence := calculate_phase_coherence o.state_history }

/-- History query (source `TetrahedronOscillator.get_history_data`): the
Python guard `if last_n` is falsy at `last_n = 0`, in which case the whole
history is returned. -/
def get_history_data (o : TetrahedronOscillator) (last_n : ℕ) :
    List (ℝ × FourDimensionalState × ℝ) :=
  let history_slice := if last_n = 0 then o.state_history else lastN last_n o.state_history
  history_slice.map fun e => (e.1, e.2, magnitude e.2)

/-- The coordinator (source class `ParticleOscillationSimulation`). -/
structure ParticleOscillationSimulation where
  oscillators : List (String × TetrahedronOscillator)
  simulation_time : ℝ
  is_running : Bool
  update_rate : ℝ
  dt : ℝ
  global_coupling : ℝ
  environmental_noise : ℝ
  update_count : ℕ
  last_fps_time : ℝ
  current_fps : ℝ

/-- Coordinator construction (source `__init__`; `now` models the
`time.time()` read initializing `last_fps_time`). -/
def initSim (now : ℝ) : ParticleOscillationSimulation :=
  { oscillators := []
    simulation_time := 0
    is_running := false
    update_rate := 60
    dt := 1 / 60
    global_coupling := 0.05
    environmental_noise := 0.01
    update_count := 0
    last_fps_time := now
    current_fps := 0 }

/-- Python `dict` assignment on an insertion-ordered association list:
replace in place when the key exists, append otherwise. -/
def dictInsert (k : String) (v : TetrahedronOscillator) :
    List (String × TetrahedronOscillator) → List (String × TetrahedronOscillator)
  | [] => [(k, v)]
  | (k₂, v₂) :: rest =>
    if k₂ = k then (k, v) :: rest else (k₂, v₂) :: dictInsert k v rest

/-- Oscillator registration (source
`ParticleOscillationSimulation.create_oscillator`, explicit-parameters
path; the `params=None` path only synthesizes random parameters before
reaching the same assignment). -/
def create_oscillator (sim : ParticleOscillationSimulation) (particle_id : String)
    (params : OscillationParameters) : ParticleOscillationSimulation :=
  { sim with oscillators := dictInsert particle_id (initOsc particle_id params) sim.oscillators }

/-- The bidirectional exchange the source applies to one pair of
oscillators inside `_apply_global_coupling`: both deltas are computed from
the current values, then added to the first and subtracted from the
second participant. -/
def pairStep (g : ℝ) (o₁ o₂ : TetrahedronOscillator) :
    TetrahedronOscillator × TetrahedronOscillator :=
  let coupling_w2 := g * (o₂.current_state.w2_energy - o₁.current_state.w2_energy) * 0.1
  let coupling_w3 := g * (o₂.current_state.w3_spin - o₁.current_state.w3_spin) * 0.05
  ({ o₁ with current_state :=
      { o₁.current_state with
          w2_energy := o₁.current_state.w2_energy + coupling_w2
          w3_spin := o₁.current_state.w3_spin + coupling_w3 } },
   { o₂ with current_state :=
      { o₂.current_state with
          w2_energy := o₂.current_state.w2_energy - coupling_w2
          w3_spin := o₂.current_state.w3_spin - coupling_w3 } })

/-- Inner loop of `_apply_global_coupling`: pair the oscillator `o`
(at index `i`) with every later oscillator in turn, threading the
updates of `o` left to right. -/
def coupleWithRest (g : ℝ) (o : TetrahedronOscillator) :
    List (String × TetrahedronOscillator) →
      TetrahedronOscillator × List (String × TetrahedronOscillator)
  | [] => (o, [])
  | (k₂, o₂) :: rest =>
    let p := pairStep g o o₂
    let q := coupleWithRest g p.1 rest
    (q.1, (k₂, p.2) :: q.2)

/-- Outer loop of `_apply_global_coupling`, driven by a fuel argument
(instantiated with the list length, which exactly suffices since
`coupleWithRest` preserves length). -/
def couplePassAux (g : ℝ) : ℕ → List (String × TetrahedronOscillator) →
    List (String × TetrahedronOscillator)
  | 0, l => l
  | _ + 1, [] => []
  | fuel + 1, (k, o) :: rest =>
    let q := coupleWithRest g o rest
    (k, q.1) :: couplePassAux g fuel q.2

/-- Global coupling pass (source
`ParticleOscillationSimulation._apply_global_coupling`, including the
`len < 2` early return). -/
def apply_global_coupling (g : ℝ) (l : List (String × TetrahedronOscillator)) :
    List (String × TetrahedronOscillator) :=
  if l.length < 2 then l else couplePassAux g l.length l

/-- The per-oscillator advance loop of `update_simulation`: the i-th
oscillator in registry order is advanced by `dt * noises i`, the noise
factor drawn for it. -/
def advanceLoop (dt : ℝ) (noises : ℕ → ℝ) :
    ℕ → List (String × TetrahedronOscillator) → List (String × TetrahedronOscillator)
  | _, [] => []
  | i, (k, o) :: rest =>
    (k, update_oscillations o (dt * noises i)) :: advanceLoop dt noises (i + 1) rest

/-- FPS accounting (source
`ParticleOscillationSimulation._update_performance_metrics`; `now` models
the `time.time()` read). -/
def update_performance_metrics (sim : ParticleOscillationSimulation) (now : ℝ) :
    ParticleOscillationSimulation :=
  if 1 ≤ now - sim.last_fps_time then
    { sim with
        current_fps := ((sim.update_count + 1 : ℕ) : ℝ) / (now - sim.last_fps_time)
        update_count := 0
        last_fps_time := now }
  else { sim with update_count := sim.update_count + 1 }

/-- One tick (source `ParticleOscillationSimulation.update_simulation`):
no-op unless running; otherwise advance simulation time, run the global
coupling pass, advance every oscillator with its noise-scaled step, and
update the FPS metrics. -/
def update_simulation (sim : ParticleOscillationSimulation) (noises : ℕ → ℝ)
    (now : ℝ) : ParticleOscillationSimulation :=
  if sim.is_running then
    let sim₁ := { sim with simulation_time := sim.simulation_time + sim.dt }
    let sim₂ := { sim₁ with
      oscillators := apply_global_coupling sim₁.global_coupling sim₁.oscillators }
    let sim₃ := { sim₂ with oscillators := advanceLoop sim₂.dt noises 0 sim₂.oscillators }
    update_performance_metrics sim₃ now
  else sim

/-- The `average_stability` aggregation of
`ParticleOscillationSimulation.get_simulation_state`: the stability sum
accumulated over the registry, divided by the count only when the
registry is non-empty. -/
def average_stability (sim : ParticleOscillationSimulation) : ℝ :=
  let avg := (sim.oscillators.map fun p => p.2.stability_factor).sum
  if 0 < sim.oscillators.length then avg / (sim.oscillators.length : ℝ) else avg

/-- Tick stage (a) of the spec: advance `simulation_time` by `dt`. -/
def tickTimeStep (sim : ParticleOscillationSimulation) : ParticleOscillationSimulation :=
  { sim with simulation_time := sim.simulation_time + sim.dt }

/-- Tick stage (b) of the spec: the global coupling pass over the registry. -/
def tickCouplingStep (sim : ParticleOscillationSimulation) : ParticleOscillationSimulation :=
  { sim with oscillators := apply_global_coupling sim.global_coupling sim.oscillators }

/-- Tick stage (c) of the spec: advance each oscillator once with its
noise-scaled time step. -/
def tickAdvanceStep (sim : ParticleOscillationSimulation) (noises : ℕ → ℝ) :
    ParticleOscillationSimulation :=
  { sim with oscillators := advanceLoop sim.dt noises 0 sim.oscillators }

/-- Iterated advance of a single oscillator over a list of time steps. -/
def run (o : TetrahedronOscillator) : List ℝ → TetrahedronOscillator
  | [] => o
  | d :: ds => run (update_oscillations o d) ds

/-- The history sample one advance appends: the new elapsed time paired
with a snapshot of the new state. -/
def advSample (o : TetrahedronOscillator) (d : ℝ) : ℝ × FourDimensionalState :=
  ((update_oscillations o d).current_time, (update_oscillations o d).current_state)

/-- The chronological list of all samples produced by a sequence of
advances. -/
def runTrace (o : TetrahedronOscillator) : List ℝ → List (ℝ × FourDimensionalState)
  | [] => []
  | d :: ds => advSample o d :: runTrace (update_oscillations o d) ds

/-- The stability formula exactly as claim C5 words it: zero at zero
magnitude, otherwise `clamp (1 - Σ |0.25 - |axis|/m|) 0 1` with exact
division by `m`. Stated from the claim, for comparison with the source's
`calculate_stability`. -/
def stabilityClaimSpec (s : FourDimensionalState) : ℝ :=
  let m := magnitude s
  if m = 0 then 0
  else
    max 0 (min 1 (1 - |0.25 - |s.w1_projection| / m| - |0.25 - |s.w2_energy| / m| -
      |0.25 - |s.w3_spin| / m| - |0.25 - |s.w4_mass| / m|))

/-- The phase-coherence formula exactly as claim C6 words it, applied to
a history buffer: take the most recent 10 entries, sum the per-axis
absolute differences of each consecutive pair, average the 9 values, and
clamp `1 - avg/4` to `[0,1]`. Stated from the claim, for comparison with
the source computation. -/
def coherenceClaimFormula (l : List (ℝ × FourDimensionalState)) : ℝ :=
  let diffs := consecDiffs ((lastN 10 l).map Prod.snd)
  max 0 (min 1 (1 - diffs.sum / 9 / 4))

/-- Registry total of the `w2_energy` axis. -/
def w2total (l : List (String × TetrahedronOscillator)) : ℝ :=
  (l.map fun p => p.2.current_state.w2_energy).sum

/-- Registry total of the `w3_spin` axis. -/
def w3total (l : List (String × TetrahedronOscillator)) : ℝ :=
  (l.map fun p => p.2.current_state.w3_spin).sum

/-- Parameter set with a different base frequency from the defaults, used
to observe the silent overwrite of `create_oscillator`. -/
def altParams : OscillationParameters :=
  { defaultParams with base_frequency := 2 }

/-- Concrete test oscillator holding a given state (inert parameters). -/
def cOsc (s : FourDimensionalState) : TetrahedronOscillator :=
  { particle_id := "c"
    params := ⟨1, 1, 1, 1, 1, 0, 0, 0, 0, 1, 0⟩
    current_time := 0
    current_state := s
    state_history := []
    stability_factor := 1
    energy_total := 0
    phase_coherence := 1 }

/-- Three-oscillator registry whose `w2_energy` values are `0, 1, 0`:
concrete input for the global-coupling pass. -/
def reg3 : List (String × TetrahedronOscillator) :=
  [("a", cOsc ⟨0, 0, 0, 0⟩), ("b", cOsc ⟨0, 1, 0, 0⟩), ("c", cOsc ⟨0, 0, 0, 0⟩)]

/-- A running coordinator holding one freshly created oscillator. -/
def simRunning : ParticleOscillationSimulation :=
  { initSim 0 with
      is_running := true
      oscillators := [("a", initOsc "a" defaultParams)] }

/-- A stopped coordinator holding one freshly created oscillator. -/
def simStopped : ParticleOscillationSimulation :=
  { initSim 0 with oscillators := [("a", initOsc "a" defaultParams)] }

/-- An oscillator whose history holds exactly one entry. -/
def histOsc : TetrahedronOscillator :=
  { initOsc "h" defaultParams with state_history := [(0, ⟨0, 1, 0, 1⟩)] }

/-- Oscillator used to refute claim C5 as stated: zero amplitudes, zero
base frequency and phases, damping 1 and coupling 1, so that one advance
lands exactly on the state `(1,1,1,1)`. -/
def oscC5 : TetrahedronOscillator :=
  { particle_id := "c5"
    params := ⟨0, 0, 0, 0, 0, 0, 0, 0, 0, 1, 1⟩
    current_time := 0
    current_state := ⟨20 / 3, 2, 5 / 6, 2⟩
    state_history := []
    stability_factor := 1
    energy_total := 0
    phase_coherence := 1 }

/-- A constant history entry for the C6 counterexample. -/
def entry1111 : ℝ × FourDimensionalState :=
  (0, ⟨1, 1, 1, 1⟩)

/-- Oscillator used to refute claim C6 as stated: ten identical history
entries, parameters chosen so the next advance lands exactly on the zero
state. -/
def oscC6 : TetrahedronOscillator :=
  { particle_id := "c6"
    params := ⟨0, 0, 0, 0, 0, 0, 0, 0, 0, 1, 0⟩
    current_time := 0
    current_state := ⟨1, 1, 1, 1⟩
    state_history := [entry1111, entry1111, entry1111, entry1111, entry1111,
      entry1111, entry1111, entry1111, entry1111, entry1111]
    stability_factor := 1
    energy_total := 0
    phase_coherence := 1 }

/-! ## General lemmas about the embedded operations -/

lemma update_oscillations_current_time (o : TetrahedronOscillator) (dt : ℝ) :
    (update_oscillations o dt).current_time = o.current_time + dt := by
  simp [update_oscillations, store_state_history]

lemma update_oscillations_phase_coherence (o : TetrahedronOscillator) (dt : ℝ) :
    (update_oscillations o dt).phase_coherence = calculate_phase_coherence o.state_history := by
  simp [update_oscillations, store_state_history]

lemma update_oscillations_stability (o : TetrahedronOscillator) (dt : ℝ) :
    (update_oscillations o dt).stability_factor =
      calculate_stability (update_oscillations o dt).current_state := by
  simp [update_oscillations, store_state_history]

lemma update_oscillations_state_history (o : TetrahedronOscillator) (dt : ℝ) :
    (update_oscillations o dt).state_history =
      (if max_history < (o.state_history ++ [advSample o dt]).length then
        lastN max_history (o.state_history ++ [advSample o dt])
      else o.state_history ++ [advSample o dt]) := by
  simp [update_oscillations, store_state_history, advSample]

lemma lastN_length (n : ℕ) (l : List α) : (lastN n l).length = min n l.length := by
  simp [lastN]
  omega

lemma lastN_of_length_le {n : ℕ} {l : List α} (h : l.length ≤ n) : lastN n l = l := by
  simp [lastN, Nat.sub_eq_zero_of_le h]

lemma update_performance_metrics_oscillators (sim : ParticleOscillationSimulation)
    (now : ℝ) :
    (update_performance_metrics sim now).oscillators = sim.oscillators := by
  unfold update_performance_metrics
  split <;> rfl

lemma update_performance_metrics_simulation_time (sim : ParticleOscillationSimulation)
    (now : ℝ) :
    (update_performance_metrics sim now).simulation_time = sim.simulation_time := by
  unfold update_performance_metrics
  split <;> rfl

/-! ## C10: average stability on an empty registry -/

/-- C10: `average_stability` is exactly 0 on an empty registry (with no
division performed), and equals the arithmetic mean of the oscillators'
stability values on a non-empty registry. -/
theorem claim_C10_average_stability (sim : ParticleOscillationSimulation) :
    (sim.oscillators = [] → average_stability sim = 0) ∧
      (sim.oscillators ≠ [] →
        average_stability sim =
          ((sim.oscillators.map fun p => p.2.stability_factor).sum) /
            (sim.oscillators.length : ℝ)) := by
  constructor
  · intro h
    simp [average_stability, h]
  · intro h
    have hpos : 0 < sim.oscillators.length := List.length_pos.2 h
    simp [average_stability, hpos]

/-- Witness for C10 at concrete coordinators: the freshly initialized
coordinator (empty registry) reports average stability 0, and a
single-oscillator registry reports the mean formula. -/
theorem claim_C10_average_stability_witness :
    average_stability (initSim 0) = 0 ∧
      average_stability simStopped =
        ((simStopped.oscillators.map fun p => p.2.stability_factor).sum) /
          (simStopped.oscillators.length : ℝ) :=
  ⟨(claim_C10_average_stability (initSim 0)).1 rfl,
    (claim_C10_average_stability simStopped).2 (by simp [simStopped, initSim])⟩

/-! ## C4: duplicate-id creation -/

/-- C4 (code behavior at the failing input): creating an oscillator under
an id that is already registered silently replaces the registry entry
with a brand-new oscillator instead of failing with `AlreadyExists` — the
second `create` under key `"osc"` discards the first oscillator (whose
parameters differ), and no error path exists. -/
theorem claim_C4_create_overwrites :
    (create_oscillator (create_oscillator (initSim 0) "osc" defaultParams) "osc"
        altParams).oscillators = [("osc", initOsc "osc" altParams)] ∧
      initOsc "osc" altParams ≠ initOsc "osc" defaultParams := by
  constructor
  · simp [create_oscillator, initSim, dictInsert]
  · intro h
    have hb := congrArg (fun o => o.params.base_frequency) h
    simp [initOsc, altParams, defaultParams] at hb

/-! ## C9: history query -/

/-- C9 (amended): for every requested count `n ≥ 1` the history query
returns the most recent `min n (history length)` entries, as
`(time, state, magnitude)` triples in chronological order.  (At `n = 0`
the source's falsy-guard returns the whole history instead; see the
counterexample.) -/
theorem claim_C9_history_query (o : TetrahedronOscillator) (n : ℕ) (h : 1 ≤ n) :
    get_history_data o n =
        (lastN n o.state_history).map (fun e => (e.1, e.2, magnitude e.2)) ∧
      (get_history_data o n).length = min n o.state_history.length := by
  have hn : n ≠ 0 := by omega
  constructor
  · simp [get_history_data, hn]
  · simp [get_history_data, hn, lastN_length]

/-- Witness for C9 at a concrete input: querying 2 entries from a
single-entry history returns that entry (as a triple), i.e. `min 2 1 = 1`
entries. -/
theorem claim_C9_history_query_witness :
    get_history_data histOsc 2 =
        (lastN 2 histOsc.state_history).map (fun e => (e.1, e.2, magnitude e.2)) ∧
      (get_history_data histOsc 2).length = min 2 histOsc.state_history.length :=
  claim_C9_history_query histOsc 2 (by decide)

/-- Counterexample to C9 as stated: requesting `n = 0` entries from a
one-entry history returns 1 entry (the Python guard `if last_n` is falsy
at 0 and falls back to the full history), so the query returns more than
`n` entries and not `min n (history length) = 0` of them. -/
theorem claim_C9_counterexample :
    (get_history_data histOsc 0).length = 1 ∧
      ¬((get_history_data histOsc 0).length ≤ 0) := by
  constructor
  · simp [get_history_data, histOsc, initOsc]
  · simp [get_history_data, histOsc, initOsc]

/-! ## C3: the global-coupling pass and conservation -/

lemma pairStep_w2_sum (g : ℝ) (o₁ o₂ : TetrahedronOscillator) :
    (pairStep g o₁ o₂).1.current_state.w2_energy +
        (pairStep g o₁ o₂).2.current_state.w2_energy =
      o₁.current_state.w2_energy + o₂.current_state.w2_energy := by
  simp [pairStep]

lemma pairStep_w3_sum (g : ℝ) (o₁ o₂ : TetrahedronOscillator) :
    (pairStep g o₁ o₂).1.current_state.w3_spin +
        (pairStep g o₁ o₂).2.current_state.w3_spin =
      o₁.current_state.w3_spin + o₂.current_state.w3_spin := by
  simp [pairStep]

lemma coupleWithRest_w2_sum (g : ℝ) (o : TetrahedronOscillator)
    (l : List (String × TetrahedronOscillator)) :
    (coupleWithRest g o l).1.current_state.w2_energy + w2total (coupleWithRest g o l).2 =
      o.current_state.w2_energy + w2total l := by
  induction l generalizing o with
  | nil => simp [coupleWithRest]
  | cons p rest ih =>
    obtain ⟨k₂, o₂⟩ := p
    have hpair := pairStep_w2_sum g o o₂
    have hih := ih (pairStep g o o₂).1
    simp only [coupleWithRest, w2total, List.map_cons, List.sum_cons] at *
    linarith

lemma coupleWithRest_w3_sum (g : ℝ) (o : TetrahedronOscillator)
    (l : List (String × TetrahedronOscillator)) :
    (coupleWithRest g o l).1.current_state.w3_spin + w3total (coupleWithRest g o l).2 =
      o.current_state.w3_spin + w3total l := by
  induction l generalizing o with
  | nil => simp [coupleWithRest]
  | cons p rest ih =>
    obtain ⟨k₂, o₂⟩ := p
    have hpair := pairStep_w3_sum g o o₂
    have hih := ih (pairStep g o o₂).1
    simp only [coupleWithRest, w3total, List.map_cons, List.sum_cons] at *
    linarith

lemma couplePassAux_w2_sum (g : ℝ) :
    ∀ (fuel : ℕ) (l : List (String × TetrahedronOscillator)),
      w2total (couplePassAux g fuel l) = w2total l := by
  intro fuel
  induction fuel with
  | zero => intro l; rfl
  | succ fuel ih =>
    intro l
    cases l with
    | nil => rfl
    | cons p rest =>
      obtain ⟨k, o⟩ := p
      have hrest := coupleWithRest_w2_sum g o rest
      have hih := ih (coupleWithRest g o rest).2
      simp only [couplePassAux, w2total, List.map_cons, List.sum_cons] at *
      linarith

lemma couplePassAux_w3_sum (g : ℝ) :
    ∀ (fuel : ℕ) (l : List (String × TetrahedronOscillator)),
      w3total (couplePassAux g fuel l) = w3total l := by
  intro fuel
  induction fuel with
  | zero => intro l; rfl
  | succ fuel ih =>
    intro l
    cases l with
    | nil => rfl
    | cons p rest =>
      obtain ⟨k, o⟩ := p
      have hrest := coupleWithRest_w3_sum g o rest
      have hih := ih (coupleWithRest g o rest).2
      simp only [couplePassAux, w3total, List.map_cons, List.sum_cons] at *
      linarith

/-- C3 (amended): each single pairwise exchange of the global-coupling
pass conserves the two participants' `a2` sum and `a3` sum exactly, and
consequently the whole pass conserves the registry-wide totals of `a2`
and of `a3`.  (The per-pair sums are not preserved across the *whole*
pass once a third oscillator participates — see the counterexample.) -/
theorem claim_C3_coupling_conservation (g : ℝ) :
    (∀ o₁ o₂ : TetrahedronOscillator,
        (pairStep g o₁ o₂).1.current_state.w2_energy +
            (pairStep g o₁ o₂).2.current_state.w2_energy =
          o₁.current_state.w2_energy + o₂.current_state.w2_energy ∧
        (pairStep g o₁ o₂).1.current_state.w3_spin +
            (pairStep g o₁ o₂).2.current_state.w3_spin =
          o₁.current_state.w3_spin + o₂.current_state.w3_spin) ∧
      ∀ l : List (String × TetrahedronOscillator),
        w2total (apply_global_coupling g l) = w2total l ∧
          w3total (apply_global_coupling g l) = w3total l := by
  refine ⟨fun o₁ o₂ => ⟨pairStep_w2_sum g o₁ o₂, pairStep_w3_sum g o₁ o₂⟩, fun l => ?_⟩
  unfold apply_global_coupling
  split
  · exact ⟨rfl, rfl⟩
  · exact ⟨couplePassAux_w2_sum g l.length l, couplePassAux_w3_sum g l.length l⟩

/-- Counterexample to C3 as stated: in a three-oscillator registry with
`a2` values `(0, 1, 0)` and the default `global_coupling = 0.05`, the
first two oscillators' `a2` sum is `1` before the pass but
`199/40000 + 7920201/8000000 ≠ 1` after the whole pass finishes (the
pairs `(1,3)` and `(2,3)` move energy between the pair `(1,2)` and the
third oscillator). -/
theorem claim_C3_counterexample :
    ((apply_global_coupling (1 / 20) reg3).map fun p => p.2.current_state.w2_energy) =
        [199 / 40000, 7920201 / 8000000, 39999 / 8000000] ∧
      (199 / 40000 : ℝ) + 7920201 / 8000000 ≠ 0 + 1 := by
  constructor
  · norm_num [apply_global_coupling, reg3, cOsc, couplePassAux, coupleWithRest, pairStep]
  · norm_num

/-! ## C8: elapsed-time monotonicity -/

lemma pairStep_fst_time (g : ℝ) (o₁ o₂ : TetrahedronOscillator) :
    (pairStep g o₁ o₂).1.current_time = o₁.current_time := rfl

lemma pairStep_snd_time (g : ℝ) (o₁ o₂ : TetrahedronOscillator) :
    (pairStep g o₁ o₂).2.current_time = o₂.current_time := rfl

lemma coupleWithRest_times (g : ℝ) (o : TetrahedronOscillator)
    (l : List (String × TetrahedronOscillator)) :
    (coupleWithRest g o l).1.current_time = o.current_time ∧
      ((coupleWithRest g o l).2.map fun p => p.2.current_time) =
        l.map fun p => p.2.current_time := by
  induction l generalizing o with
  | nil => exact ⟨rfl, rfl⟩
  | cons p rest ih =>
    obtain ⟨k₂, o₂⟩ := p
    have hih := ih (pairStep g o o₂).1
    simp only [coupleWithRest, List.map_cons]
    exact ⟨by rw [hih.1, pairStep_fst_time], by rw [hih.2, pairStep_snd_time]⟩

lemma couplePassAux_times (g : ℝ) :
    ∀ (fuel : ℕ) (l : List (String × TetrahedronOscillator)),
      ((couplePassAux g fuel l).map fun p => p.2.current_time) =
        l.map fun p => p.2.current_time := by
  intro fuel
  induction fuel with
  | zero => intro l; rfl
  | succ fuel ih =>
    intro l
    cases l with
    | nil => rfl
    | cons p rest =>
      obtain ⟨k, o⟩ := p
      have hrest := coupleWithRest_times g o rest
      simp only [couplePassAux, List.map_cons, ih, hrest.1, hrest.2]

lemma apply_global_coupling_times (g : ℝ) (l : List (String × TetrahedronOscillator)) :
    ((apply_global_coupling g l).map fun p => p.2.current_time) =
      l.map fun p => p.2.current_time := by
  unfold apply_global_coupling
  split
  · rfl
  · exact couplePassAux_times g l.length l

lemma advanceLoop_time_mono (dt : ℝ) (noises : ℕ → ℝ) (hdt : 0 ≤ dt)
    (hn : ∀ j, 0 ≤ noises j) :
    ∀ (l₂ l₁ : List (String × TetrahedronOscillator)) (i : ℕ),
      (l₁.map fun p => p.2.current_time) = (l₂.map fun p => p.2.current_time) →
      List.Forall₂ (fun p q : String × TetrahedronOscillator =>
        p.2.current_time ≤ q.2.current_time) l₁ (advanceLoop dt noises i l₂) := by
  intro l₂
  induction l₂ with
  | nil =>
    intro l₁ i h
    have : l₁ = [] := by simpa using h
    subst this
    exact List.Forall₂.nil
  | cons p rest ih =>
    intro l₁ i h
    obtain ⟨k, o⟩ := p
    cases l₁ with
    | nil => simp at h
    | cons q qs =>
      simp only [List.map_cons, List.cons.injEq] at h
      refine List.Forall₂.cons ?_ (ih qs (i + 1) h.2)
      have := mul_nonneg hdt (hn i)
      rw [update_oscillations_current_time]
      rw [h.1]
      linarith

/-- C8 (amended): `elapsed_time` starts at 0 at creation, and a tick
never decreases any oscillator's `elapsed_time` *provided the
noise-scaled steps are non-negative*: if `0 ≤ dt` and every noise factor
drawn is non-negative, each oscillator's elapsed time after
`update_simulation` is at least its elapsed time before.  (An arbitrary
Gaussian draw can be negative and then elapsed time decreases — see the
counterexample.) -/
theorem claim_C8_elapsed_monotone :
    (∀ (id : String) (params : OscillationParameters),
        (initOsc id params).current_time = 0) ∧
      ∀ (sim : ParticleOscillationSimulation) (noises : ℕ → ℝ) (now : ℝ),
        0 ≤ sim.dt → (∀ j, 0 ≤ noises j) →
        List.Forall₂ (fun p q : String × TetrahedronOscillator =>
            p.2.current_time ≤ q.2.current_time)
          sim.oscillators (update_simulation sim noises now).oscillators := by
  refine ⟨fun id params => rfl, fun sim noises now hdt hn => ?_⟩
  by_cases hr : sim.is_running
  · have hosc : (update_simulation sim noises now).oscillators =
        advanceLoop sim.dt noises 0 (apply_global_coupling sim.global_coupling
          sim.oscillators) := by
      simp [update_simulation, hr, update_performance_metrics_oscillators]
    rw [hosc]
    exact advanceLoop_time_mono sim.dt noises hdt hn _ sim.oscillators 0
      (apply_global_coupling_times sim.global_coupling sim.oscillators).symm
  · have hosc : update_simulation sim noises now = sim := by
      simp [update_simulation, hr]
    rw [hosc]
    exact List.forall₂_same.2 fun x _ => le_refl _

/-- Witness for C8 at a concrete input: one running coordinator, noise
factor 1 everywhere. -/
theorem claim_C8_elapsed_monotone_witness :
    List.Forall₂ (fun p q : String × TetrahedronOscillator =>
        p.2.current_time ≤ q.2.current_time)
      simRunning.oscillators
      ((update_simulation simRunning (fun _ => 1) 0).oscillators) :=
  claim_C8_elapsed_monotone.2 simRunning (fun _ => 1) 0
    (by norm_num [simRunning, initSim]) (fun j => by norm_num)

/-- Counterexample to C8 as stated: with a (legal, if astronomically
unlikely) Gaussian draw `n = -1`, a tick advances the single oscillator
by `dt · n = -1/60`, so its elapsed time strictly decreases from 0 to
`-1/60`. -/
theorem claim_C8_counterexample :
    ((update_simulation simRunning (fun _ => -1) 0).oscillators.map
        fun p => p.2.current_time) = [-(1 / 60)] ∧
      ¬((0 : ℝ) ≤ -(1 / 60)) := by
  constructor
  · have hosc : (update_simulation simRunning (fun _ => -1) 0).oscillators =
        advanceLoop simRunning.dt (fun _ => -1) 0
          (apply_global_coupling simRunning.global_coupling simRunning.oscillators) := by
      simp [update_simulation, simRunning, initSim, update_performance_metrics_oscillators]
    rw [hosc]
    have hcoup : apply_global_coupling simRunning.global_coupling simRunning.oscillators =
        simRunning.oscillators := by
      simp [apply_global_coupling, simRunning, initSim]
    rw [hcoup]
    simp [advanceLoop, simRunning, initSim, initOsc, update_oscillations_current_time]
  · norm_num

/-! ## C1: tick structure -/

/-- C1: a tick is a no-op (the whole coordinator state, including the
registry, history, derived scalars and FPS counters, is returned
unchanged) when `running` is false; when `running` is true the tick is
exactly the composition: advance `simulation_time` by `dt`, run the
global-coupling pass over the registry, advance each oscillator once by
its noise-scaled step `dt · n`, then update the FPS metrics — in that
order — and in particular `simulation_time` grows by exactly `dt`. -/
theorem claim_C1_tick_order (sim : ParticleOscillationSimulation) (noises : ℕ → ℝ)
    (now : ℝ) :
    (sim.is_running = false → update_simulation sim noises now = sim) ∧
      (sim.is_running = true →
        update_simulation sim noises now =
            update_performance_metrics
              (tickAdvanceStep (tickCouplingStep (tickTimeStep sim)) noises) now ∧
          (update_simulation sim noises now).simulation_time =
            sim.simulation_time + sim.dt) := by
  constructor
  · intro h
    simp [update_simulation, h]
  · intro h
    constructor
    · simp [update_simulation, h, tickTimeStep, tickCouplingStep, tickAdvanceStep]
    · simp [update_simulation, h, update_performance_metrics_simulation_time]

/-- Witness for C1 at concrete inputs: a stopped coordinator is returned
untouched by a tick, and a running one has its simulation time advanced
by `dt`. -/
theorem claim_C1_tick_order_witness :
    update_simulation simStopped (fun _ => 1) 5 = simStopped ∧
      (update_simulation simRunning (fun _ => 1) 5).simulation_time =
        simRunning.simulation_time + simRunning.dt :=
  ⟨(claim_C1_tick_order simStopped (fun _ => 1) 5).1 rfl,
    ((claim_C1_tick_order simRunning (fun _ => 1) 5).2 rfl).2⟩

/-! ## C7: bounded history retention -/

lemma drop_append_le : ∀ (n : ℕ) (L M : List α), n ≤ L.length →
    (L ++ M).drop n = L.drop n ++ M := by
  intro n L
  induction L generalizing n with
  | nil =>
    intro M h
    have : n = 0 := by simpa using h
    subst this
    simp
  | cons a t ih =>
    intro M h
    cases n with
    | zero => simp
    | succ m =>
      simp only [List.cons_append, List.drop_succ_cons]
      exact ih m M (by simpa using h)

lemma lastN_append_lastN (n : ℕ) (L M : List α) :
    lastN n (lastN n L ++ M) = lastN n (L ++ M) := by
  rcases le_or_lt L.length n with h | h
  · rw [lastN_of_length_le h]
  · have hn : n ≤ L.length := le_of_lt h
    unfold lastN
    rw [List.length_append, List.length_append, List.length_drop]
    rw [show L.length - (L.length - n) + M.length - n = M.length by omega]
    rw [show L.length + M.length - n = L.length - n + M.length by omega]
    rw [← List.drop_drop]
    rw [drop_append_le (L.length - n) L M (Nat.sub_le _ _)]

lemma update_history_lastN (o : TetrahedronOscillator) (d : ℝ) :
    (update_oscillations o d).state_history =
      lastN 1000 (o.state_history ++ [advSample o d]) := by
  rw [update_oscillations_state_history]
  rcases lt_or_ge max_history (o.state_history ++ [advSample o d]).length with hc | hc
  · rw [if_pos hc]
    rfl
  · rw [if_neg (not_lt.2 hc)]
    exact (lastN_of_length_le hc).symm

lemma runTrace_length (ds : List ℝ) : ∀ o : TetrahedronOscillator,
    (runTrace o ds).length = ds.length := by
  induction ds with
  | nil => intro o; rfl
  | cons d ds ih => intro o; simp [runTrace, ih]

lemma run_history (ds : List ℝ) : ∀ o : TetrahedronOscillator,
    o.state_history.length ≤ 1000 →
    (run o ds).state_history = lastN 1000 (o.state_history ++ runTrace o ds) := by
  induction ds with
  | nil =>
    intro o h
    simp only [run, runTrace, List.append_nil]
    exact (lastN_of_length_le h).symm
  | cons d ds ih =>
    intro o h
    have h1 := update_history_lastN o d
    have h2 : (update_oscillations o d).state_history.length ≤ 1000 := by
      rw [h1, lastN_length]
      exact min_le_left _ _
    have h3 := ih (update_oscillations o d) h2
    simp only [run, runTrace]
    rw [h3, h1, lastN_append_lastN, List.append_assoc, List.singleton_append]

/-- C7: after any `k` advances from creation the history buffer holds
exactly `min k 1000` entries — it never exceeds 1000 — and its contents
are exactly the `(time, state)` samples of the most recent 1000 advances
in chronological order (the prefix of older samples is dropped). -/
theorem claim_C7_history_bound (id : String) (params : OscillationParameters)
    (ds : List ℝ) :
    (run (initOsc id params) ds).state_history =
        (runTrace (initOsc id params) ds).drop (ds.length - 1000) ∧
      (run (initOsc id params) ds).state_history.length = min ds.length 1000 := by
  have hnil : (initOsc id params).state_history = [] := rfl
  have h := run_history ds (initOsc id params) (by rw [hnil]; simp)
  have hlen := runTrace_length ds (initOsc id params)
  constructor
  · rw [h, hnil]
    simp only [List.nil_append, lastN, hlen]
  · rw [h, hnil]
    simp only [List.nil_append, lastN_length, hlen]
    omega

/-! ## C6: phase coherence -/

lemma consecDiffs_length : ∀ l : List FourDimensionalState,
    (consecDiffs l).length = l.length - 1 := by
  intro l
  induction l with
  | nil => rfl
  | cons a t ih =>
    cases t with
    | nil => rfl
    | cons b r =>
      simp only [consecDiffs, List.length_cons] at *
      omega

/-- C6 (amended): the coherence stored by an advance is computed from the
history *as it was before the new sample is appended*: it equals 1.0
whenever that pre-append history held fewer than 10 entries (i.e. up to
and including the 10th advance), and otherwise equals the clamped average
difference over the 10 most recent pre-append entries; it always lies in
`[0,1]`.  (The claim's reading — the formula over the 10 most recent
entries of the *post-advance* history — fails by one sample; see the
counterexample.) -/
theorem claim_C6_phase_coherence (o : TetrahedronOscillator) (d : ℝ) :
    (o.state_history.length < 10 → (update_oscillations o d).phase_coherence = 1) ∧
      (10 ≤ o.state_history.length →
        (update_oscillations o d).phase_coherence = coherenceClaimFormula o.state_history) ∧
      0 ≤ (update_oscillations o d).phase_coherence ∧
      (update_oscillations o d).phase_coherence ≤ 1 := by
  rw [update_oscillations_phase_coherence]
  refine ⟨fun h => ?_, fun h => ?_, ?_, ?_⟩
  · simp [calculate_phase_coherence, h]
  · have hnine : (consecDiffs ((lastN 10 o.state_history).map Prod.snd)).length = 9 := by
      rw [consecDiffs_length, List.length_map, lastN_length]
      omega
    have hlt : ¬(o.state_history.length < 10) := by omega
    simp only [calculate_phase_coherence, coherenceClaimFormula, hlt, if_false, hnine]
    norm_num
  · unfold calculate_phase_coherence
    split
    · norm_num
    · exact le_max_left 0 _
  · unfold calculate_phase_coherence
    split
    · norm_num
    · exact max_le (by norm_num) (min_le_left _ _)

/-- Witness for C6 at a concrete input: one advance of a fresh oscillator
(empty history) stores coherence exactly 1, which lies in `[0,1]`. -/
theorem claim_C6_phase_coherence_witness :
    (update_oscillations (initOsc "w" defaultParams) 1).phase_coherence = 1 ∧
      0 ≤ (update_oscillations (initOsc "w" defaultParams) 1).phase_coherence ∧
      (update_oscillations (initOsc "w" defaultParams) 1).phase_coherence ≤ 1 :=
  ⟨(claim_C6_phase_coherence (initOsc "w" defaultParams) 1).1 (by decide),
    (claim_C6_phase_coherence (initOsc "w" defaultParams) 1).2.2.1,
    (claim_C6_phase_coherence (initOsc "w" defaultParams) 1).2.2.2⟩

lemma oscC6_advance_state :
    (update_oscillations oscC6 1).current_state = ⟨0, 0, 0, 0⟩ := by
  simp [update_oscillations, store_state_history, oscC6]

lemma oscC6_advance_history :
    (update_oscillations oscC6 1).state_history =
      oscC6.state_history ++ [advSample oscC6 1] := by
  rw [update_history_lastN]
  apply lastN_of_length_le
  simp [oscC6]

/-- Counterexample to C6 as stated: advancing an oscillator whose history
holds 10 identical entries lands the history at 11 ≥ 10 entries, yet the
stored coherence is 1.0 (computed before the append from 10 equal
states), while the claim's formula over the 10 most recent post-advance
entries evaluates to 8/9 — the code is one sample behind the claim. -/
theorem claim_C6_counterexample :
    10 ≤ (update_oscillations oscC6 1).state_history.length ∧
      (update_oscillations oscC6 1).phase_coherence = 1 ∧
      coherenceClaimFormula (update_oscillations oscC6 1).state_history = 8 / 9 ∧
      (1 : ℝ) ≠ 8 / 9 := by
  refine ⟨?_, ?_, ?_, by norm_num⟩
  · rw [oscC6_advance_history]
    simp [oscC6]
  · rw [update_oscillations_phase_coherence]
    norm_num [calculate_phase_coherence, oscC6, entry1111, lastN, consecDiffs, stateDiff]
  · rw [oscC6_advance_history]
    have hs : advSample oscC6 1 =
        ((update_oscillations oscC6 1).current_time, (⟨0, 0, 0, 0⟩ : FourDimensionalState)) := by
      rw [advSample, oscC6_advance_state]
    rw [hs]
    norm_num [coherenceClaimFormula, oscC6, entry1111, lastN, consecDiffs, stateDiff]

/-! ## C5: stability -/

lemma magnitude_zero_components {s : FourDimensionalState} (h : magnitude s = 0) :
    s.w1_projection = 0 ∧ s.w2_energy = 0 ∧ s.w3_spin = 0 ∧ s.w4_mass = 0 := by
  have h0 : s.w1_projection ^ 2 + s.w2_energy ^ 2 + s.w3_spin ^ 2 + s.w4_mass ^ 2 ≤ 0 :=
    Real.sqrt_eq_zero'.1 h
  have h1 := sq_nonneg s.w1_projection
  have h2 := sq_nonneg s.w2_energy
  have h3 := sq_nonneg s.w3_spin
  have h4 := sq_nonneg s.w4_mass
  refine ⟨?_, ?_, ?_, ?_⟩ <;>
    [exact pow_eq_zero_iff two_ne_zero |>.1 (le_antisymm (by linarith) h1);
     exact pow_eq_zero_iff two_ne_zero |>.1 (le_antisymm (by linarith) h2);
     exact pow_eq_zero_iff two_ne_zero |>.1 (le_antisymm (by linarith) h3);
     exact pow_eq_zero_iff two_ne_zero |>.1 (le_antisymm (by linarith) h4)]

/-- C5 (amended): after every advance the stored stability equals the
clamped balance formula in which each ratio divides by
`magnitude + 1e-6` (the engine's ε-guarded denominator, no separate
zero-magnitude branch); at zero magnitude this still yields stability 0,
and stability always lies in `[0,1]`.  (The claim's exact-division,
zero-branched formula disagrees with the code away from the clamp
boundaries; see the counterexample.) -/
theorem claim_C5_stability (o : TetrahedronOscillator) (d : ℝ) :
    ((update_oscillations o d).stability_factor =
        max 0 (min 1 (1 -
          |0.25 - |(update_oscillations o d).current_state.w1_projection| /
            (magnitude (update_oscillations o d).current_state + 1e-6)| -
          |0.25 - |(update_oscillations o d).current_state.w2_energy| /
            (magnitude (update_oscillations o d).current_state + 1e-6)| -
          |0.25 - |(update_oscillations o d).current_state.w3_spin| /
            (magnitude (update_oscillations o d).current_state + 1e-6)| -
          |0.25 - |(update_oscillations o d).current_state.w4_mass| /
            (magnitude (update_oscillations o d).current_state + 1e-6)|))) ∧
      (magnitude (update_oscillations o d).current_state = 0 →
        (update_oscillations o d).stability_factor = 0) ∧
      0 ≤ (update_oscillations o d).stability_factor ∧
      (update_oscillations o d).stability_factor ≤ 1 := by
  rw [update_oscillations_stability]
  refine ⟨rfl, fun h => ?_, ?_, ?_⟩
  · obtain ⟨h1, h2, h3, h4⟩ := magnitude_zero_components h
    norm_num [calculate_stability, h, h1, h2, h3, h4]
    rw [show |(1:ℝ) / 4| = 1 / 4 from abs_of_nonneg (by norm_num)]
    norm_num
  · unfold calculate_stability
    exact le_max_left 0 _
  · unfold calculate_stability
    exact max_le (by norm_num) (min_le_left _ _)

/-- Witness for C5 at a concrete input: an advance that lands exactly on
the zero state has magnitude 0 and stored stability 0, inside `[0,1]`. -/
theorem claim_C5_stability_witness :
    (update_oscillations oscC6 1).stability_factor = 0 ∧
      0 ≤ (update_oscillations oscC6 1).stability_factor ∧
      (update_oscillations oscC6 1).stability_factor ≤ 1 :=
  ⟨(claim_C5_stability oscC6 1).2.1
      (by rw [oscC6_advance_state]; simp [magnitude]),
    (claim_C5_stability oscC6 1).2.2.1,
    (claim_C5_stability oscC6 1).2.2.2⟩

lemma oscC5_advance_state :
    (update_oscillations oscC5 1).current_state = ⟨1, 1, 1, 1⟩ := by
  simp [update_oscillations, store_state_history, oscC5]
  norm_num [Real.sin_zero]

lemma magnitude_one_one_one_one :
    magnitude ⟨1, 1, 1, 1⟩ = 2 := by
  unfold magnitude
  rw [show ((1:ℝ) ^ 2 + 1 ^ 2 + 1 ^ 2 + 1 ^ 2) = 2 ^ 2 by norm_num]
  exact Real.sqrt_sq (by norm_num)

/-- Counterexample to C5 as stated: an advance landing exactly on the
state `(1,1,1,1)` (magnitude 2) stores stability `2/2000001 ≠ 0` (the
ε-guarded ratios are slightly below 1/2), while the claim's
exact-division formula evaluates to 0 on that state. -/
theorem claim_C5_counterexample :
    stabilityClaimSpec (update_oscillations oscC5 1).current_state = 0 ∧
      (update_oscillations oscC5 1).stability_factor = 2 / 2000001 ∧
      (2 / 2000001 : ℝ) ≠ 0 := by
  refine ⟨?_, ?_, by norm_num⟩
  · rw [oscC5_advance_state]
    simp only [stabilityClaimSpec, magnitude_one_one_one_one]
    norm_num
    rw [show |(1:ℝ) / 4| = 1 / 4 from abs_of_nonneg (by norm_num)]
    norm_num
  · rw [update_oscillations_stability, oscC5_advance_state]
    simp only [calculate_stability, magnitude_one_one_one_one]
    rw [show |0.25 - |(1:ℝ)| / (2 + 1e-6)| = 1 / (2 + 1e-6) - 0.25 by
      rw [abs_of_nonpos (by norm_num)]
      norm_num]
    rw [show (1:ℝ) - (1 / (2 + 1e-6) - 0.25) - (1 / (2 + 1e-6) - 0.25) -
        (1 / (2 + 1e-6) - 0.25) - (1 / (2 + 1e-6) - 0.25) = 2 / 2000001 by norm_num]
    rw [min_eq_right (by norm_num), max_eq_right (by norm_num)]

lemma c2_state :
    (update_oscillations (initOsc "p" defaultParams) 0.016).current_state =
      ⟨(Real.sin (4/125*π) + 0.05) * 0.98,
       (1.5 * Real.sin (24/625*π + π/4)) * 0.98,
       (0.8 * Real.sin (16/625*π + π/2) + 0.05 + 0.3 * Real.sin (12/125*π)) * 0.98,
       (1.2 * Real.sin (22/625*π + 3*π/4)) * 0.98⟩ := by
  simp only [update_oscillations, store_state_history, initOsc, defaultParams]
  norm_num [FourDimensionalState.mk.injEq]
  refine ⟨?_, ?_, ?_, ?_⟩ <;> ring_nf

/-- Two-sided Taylor bounds for `sin` on `[0,1]` from Mathlib's
`Real.sin_bound`, with the cubic polynomial evaluated at rational
endpoints of an enclosure of the argument. -/
lemma sin_poly_sandwich (x lo hi : ℝ) (h0 : 0 ≤ lo) (hl : lo ≤ x) (hh : x ≤ hi)
    (h1 : hi ≤ 1) :
    lo - hi ^ 3 / 6 - hi ^ 4 * (5 / 96) ≤ Real.sin x ∧
      Real.sin x ≤ hi - lo ^ 3 / 6 + hi ^ 4 * (5 / 96) := by
  have hx0 : 0 ≤ x := le_trans h0 hl
  have hxa : |x| ≤ 1 := by rw [abs_of_nonneg hx0]; linarith
  have hb := Real.sin_bound hxa
  rw [abs_of_nonneg hx0, abs_le] at hb
  have h3l : lo ^ 3 ≤ x ^ 3 := pow_le_pow_left₀ h0 hl 3
  have h3h : x ^ 3 ≤ hi ^ 3 := pow_le_pow_left₀ hx0 hh 3
  have h4 : x ^ 4 ≤ hi ^ 4 := pow_le_pow_left₀ hx0 hh 4
  constructor <;> nlinarith [hb.1, hb.2]

lemma cos_double_sin (x : ℝ) : Real.cos (2 * x) = 1 - 2 * Real.sin x ^ 2 := by
  rw [Real.cos_two_mul']
  have h := Real.sin_sq_add_cos_sq x
  linarith

lemma sin_q4_125 : 0.10035628 ≤ Real.sin (4/125*π) ∧ Real.sin (4/125*π) ≤ 0.10036697 := by
  have h := sin_poly_sandwich (4/125*π) 0.100530944 0.100530976 (by norm_num)
    (by linarith [Real.pi_gt_d6]) (by linarith [Real.pi_lt_d6]) (by norm_num)
  exact ⟨le_trans (by norm_num) h.1, le_trans h.2 (by norm_num)⟩

lemma sin_q12_625 : 0.06028130 ≤ Real.sin (12/625*π) ∧ Real.sin (12/625*π) ≤ 0.06028270 := by
  have h := sin_poly_sandwich (12/625*π) 0.0603185664 0.0603185856 (by norm_num)
    (by linarith [Real.pi_gt_d6]) (by linarith [Real.pi_lt_d6]) (by norm_num)
  exact ⟨le_trans (by norm_num) h.1, le_trans h.2 (by norm_num)⟩

lemma sin_q6_625 : 0.03015466 ≤ Real.sin (6/625*π) ∧ Real.sin (6/625*π) ≤ 0.03015477 := by
  have h := sin_poly_sandwich (6/625*π) 0.0301592832 0.0301592928 (by norm_num)
    (by linarith [Real.pi_gt_d6]) (by linarith [Real.pi_lt_d6]) (by norm_num)
  exact ⟨le_trans (by norm_num) h.1, le_trans h.2 (by norm_num)⟩

lemma sin_q8_625 : 0.04020140 ≤ Real.sin (8/625*π) ∧ Real.sin (8/625*π) ≤ 0.04020169 := by
  have h := sin_poly_sandwich (8/625*π) 0.0402123776 0.0402123904 (by norm_num)
    (by linarith [Real.pi_gt_d6]) (by linarith [Real.pi_lt_d6]) (by norm_num)
  exact ⟨le_trans (by norm_num) h.1, le_trans h.2 (by norm_num)⟩

lemma sin_q12_125 : 0.29658986 ≤ Real.sin (12/125*π) ∧ Real.sin (12/125*π) ≤ 0.29745178 := by
  have h := sin_poly_sandwich (12/125*π) 0.301592832 0.301592928 (by norm_num)
    (by linarith [Real.pi_gt_d6]) (by linarith [Real.pi_lt_d6]) (by norm_num)
  exact ⟨le_trans (by norm_num) h.1, le_trans h.2 (by norm_num)⟩

lemma sin_q22_625 : 0.11035086 ≤ Real.sin (22/625*π) ∧ Real.sin (22/625*π) ≤ 0.11036648 := by
  have h := sin_poly_sandwich (22/625*π) 0.1105840384 0.1105840736 (by norm_num)
    (by linarith [Real.pi_gt_d6]) (by linarith [Real.pi_lt_d6]) (by norm_num)
  exact ⟨le_trans (by norm_num) h.1, le_trans h.2 (by norm_num)⟩

lemma sin_q11_625 : 0.05526335 ≤ Real.sin (11/625*π) ∧ Real.sin (11/625*π) ≤ 0.05526436 := by
  have h := sin_poly_sandwich (11/625*π) 0.0552920192 0.0552920368 (by norm_num)
    (by linarith [Real.pi_gt_d6]) (by linarith [Real.pi_lt_d6]) (by norm_num)
  exact ⟨le_trans (by norm_num) h.1, le_trans h.2 (by norm_num)⟩

lemma cos_q12_625 : 0.99818137 ≤ Real.cos (12/625*π) ∧ Real.cos (12/625*π) ≤ 0.99818140 := by
  rw [show (12/625:ℝ)*π = 2*(6/625*π) by ring, cos_double_sin]
  have hs := sin_q6_625
  constructor <;> nlinarith [hs.1, hs.2]

lemma cos_q24_625 : 0.99273199 ≤ Real.cos (24/625*π) ∧ Real.cos (24/625*π) ≤ 0.99273233 := by
  rw [show (24/625:ℝ)*π = 2*(12/625*π) by ring, cos_double_sin]
  have hs := sin_q12_625
  constructor <;> nlinarith [hs.1, hs.2]

lemma cos_q16_625 : 0.99676763 ≤ Real.cos (16/625*π) ∧ Real.cos (16/625*π) ≤ 0.99676771 := by
  rw [show (16/625:ℝ)*π = 2*(8/625*π) by ring, cos_double_sin]
  have hs := sin_q8_625
  constructor <;> nlinarith [hs.1, hs.2]

lemma cos_q22_625 : 0.99389165 ≤ Real.cos (22/625*π) ∧ Real.cos (22/625*π) ≤ 0.99389198 := by
  rw [show (22/625:ℝ)*π = 2*(11/625*π) by ring, cos_double_sin]
  have hs := sin_q11_625
  constructor <;> nlinarith [hs.1, hs.2]

lemma sin_q24_625 : 0.12034334 ≤ Real.sin (24/625*π) ∧ Real.sin (24/625*π) ≤ 0.12034615 := by
  rw [show (24/625:ℝ)*π = 2*(12/625*π) by ring, Real.sin_two_mul]
  have hs := sin_q12_625
  have hc := cos_q12_625
  have hs0 : (0:ℝ) ≤ Real.sin (12/625*π) := le_trans (by norm_num) hs.1
  have hc0 : (0:ℝ) ≤ Real.cos (12/625*π) := le_trans (by norm_num) hc.1
  have hu : Real.sin (12/625*π) * Real.cos (12/625*π) ≤ 0.06028270 * 0.99818140 :=
    mul_le_mul hs.2 hc.2 hc0 (by norm_num)
  have hl : 0.06028130 * 0.99818137 ≤ Real.sin (12/625*π) * Real.cos (12/625*π) :=
    mul_le_mul hs.1 hc.1 (by norm_num) hs0
  constructor <;> nlinarith [hu, hl]

lemma sqrt_two_bounds : 1.41421356 ≤ Real.sqrt 2 ∧ Real.sqrt 2 ≤ 1.41421357 := by
  have h := Real.sq_sqrt (by norm_num : (0:ℝ) ≤ 2)
  have hnn := Real.sqrt_nonneg 2
  constructor <;> nlinarith [h, hnn]

lemma c2_w1_bounds :
    0.1473 ≤ (update_oscillations (initOsc "p" defaultParams) 0.016).current_state.w1_projection ∧
      (update_oscillations (initOsc "p" defaultParams) 0.016).current_state.w1_projection ≤ 0.1474 := by
  have hw : (update_oscillations (initOsc "p" defaultParams) 0.016).current_state.w1_projection =
      (Real.sin (4/125*π) + 0.05) * 0.98 := by rw [c2_state]
  rw [hw]
  have hs := sin_q4_125
  constructor <;> linarith [hs.1, hs.2]

lemma c2_w2_bounds :
    1.15698 ≤ (update_oscillations (initOsc "p" defaultParams) 0.016).current_state.w2_energy ∧
      (update_oscillations (initOsc "p" defaultParams) 0.016).current_state.w2_energy ≤ 1.156987 := by
  have hw : (update_oscillations (initOsc "p" defaultParams) 0.016).current_state.w2_energy =
      (1.5 * (Real.sin (24/625*π) * (Real.sqrt 2 / 2) +
        Real.cos (24/625*π) * (Real.sqrt 2 / 2))) * 0.98 := by
    rw [c2_state]
    rw [Real.sin_add, Real.sin_pi_div_four, Real.cos_pi_div_four]
  rw [hw]
  have hs := sin_q24_625
  have hc := cos_q24_625
  have hr := sqrt_two_bounds
  have hs0 : (0:ℝ) ≤ Real.sin (24/625*π) := le_trans (by norm_num) hs.1
  have hc0 : (0:ℝ) ≤ Real.cos (24/625*π) := le_trans (by norm_num) hc.1
  have hr0 : (0:ℝ) ≤ Real.sqrt 2 := Real.sqrt_nonneg 2
  have h1 : Real.sqrt 2 * Real.sin (24/625*π) ≤ 1.41421357 * 0.12034615 :=
    mul_le_mul hr.2 hs.2 hs0 (by norm_num)
  have h2 : 1.41421356 * 0.12034334 ≤ Real.sqrt 2 * Real.sin (24/625*π) :=
    mul_le_mul hr.1 hs.1 (by norm_num) hr0
  have h3 : Real.sqrt 2 * Real.cos (24/625*π) ≤ 1.41421357 * 0.99273233 :=
    mul_le_mul hr.2 hc.2 hc0 (by norm_num)
  have h4 : 1.41421356 * 0.99273199 ≤ Real.sqrt 2 * Real.cos (24/625*π) :=
    mul_le_mul hr.1 hc.1 (by norm_num) hr0
  constructor <;> nlinarith [h1, h2, h3, h4]

lemma c2_w3_bounds :
    0.9176 ≤ (update_oscillations (initOsc "p" defaultParams) 0.016).current_state.w3_spin ∧
      (update_oscillations (initOsc "p" defaultParams) 0.016).current_state.w3_spin ≤ 0.918 := by
  have hw : (update_oscillations (initOsc "p" defaultParams) 0.016).current_state.w3_spin =
      (0.8 * Real.cos (16/625*π) + 0.05 + 0.3 * Real.sin (12/125*π)) * 0.98 := by
    rw [c2_state]
    rw [Real.sin_add_pi_div_two]
  rw [hw]
  have hc := cos_q16_625
  have hs := sin_q12_125
  constructor <;> linarith [hc.1, hc.2, hs.1, hs.2]

lemma c2_w4_bounds :
    0.7346 ≤ (update_oscillations (initOsc "p" defaultParams) 0.016).current_state.w4_mass ∧
      (update_oscillations (initOsc "p" defaultParams) 0.016).current_state.w4_mass ≤ 0.7348 := by
  have hw : (update_oscillations (initOsc "p" defaultParams) 0.016).current_state.w4_mass =
      (1.2 * (Real.sin (22/625*π) * (-(Real.sqrt 2 / 2)) +
        Real.cos (22/625*π) * (Real.sqrt 2 / 2))) * 0.98 := by
    rw [c2_state]
    show (1.2 * Real.sin (22/625*π + 3*π/4)) * 0.98 = _
    rw [Real.sin_add, show (3:ℝ)*π/4 = π - π/4 by ring, Real.sin_pi_sub, Real.cos_pi_sub,
      Real.sin_pi_div_four, Real.cos_pi_div_four]
  rw [hw]
  have hs := sin_q22_625
  have hc := cos_q22_625
  have hr := sqrt_two_bounds
  have hs0 : (0:ℝ) ≤ Real.sin (22/625*π) := le_trans (by norm_num) hs.1
  have hc0 : (0:ℝ) ≤ Real.cos (22/625*π) := le_trans (by norm_num) hc.1
  have hr0 : (0:ℝ) ≤ Real.sqrt 2 := Real.sqrt_nonneg 2
  have h1 : Real.sqrt 2 * Real.sin (22/625*π) ≤ 1.41421357 * 0.11036648 :=
    mul_le_mul hr.2 hs.2 hs0 (by norm_num)
  have h2 : 1.41421356 * 0.11035086 ≤ Real.sqrt 2 * Real.sin (22/625*π) :=
    mul_le_mul hr.1 hs.1 (by norm_num) hr0
  have h3 : Real.sqrt 2 * Real.cos (22/625*π) ≤ 1.41421357 * 0.99389198 :=
    mul_le_mul hr.2 hc.2 hc0 (by norm_num)
  have h4 : 1.41421356 * 0.99389165 ≤ Real.sqrt 2 * Real.cos (22/625*π) :=
    mul_le_mul hr.1 hc.1 (by norm_num) hr0
  constructor <;> nlinarith [h1, h2, h3, h4]

/-- C2 (amended): one `advance(0.016)` of an oscillator created with the
default parameters and initial state `(0,1,0,1)` lands, within tolerance
`1e-3` componentwise, on `(0.147, 1.156, 0.918, 0.735)` — the claim's
expected fourth component `0.739` is wrong, the true value is
`≈ 0.73471`; the stored phase coherence is exactly 1.0 (the history held
fewer than 10 entries), and the stored stability is the stability
formula evaluated on the new state. -/
theorem claim_C2_advance_scenario :
    |(update_oscillations (initOsc "p" defaultParams) 0.016).current_state.w1_projection
        - 0.147| ≤ 1/1000 ∧
      |(update_oscillations (initOsc "p" defaultParams) 0.016).current_state.w2_energy
        - 1.156| ≤ 1/1000 ∧
      |(update_oscillations (initOsc "p" defaultParams) 0.016).current_state.w3_spin
        - 0.918| ≤ 1/1000 ∧
      |(update_oscillations (initOsc "p" defaultParams) 0.016).current_state.w4_mass
        - 0.735| ≤ 1/1000 ∧
      (update_oscillations (initOsc "p" defaultParams) 0.016).phase_coherence = 1 ∧
      (update_oscillations (initOsc "p" defaultParams) 0.016).stability_factor =
        calculate_stability
          (update_oscillations (initOsc "p" defaultParams) 0.016).current_state := by
  refine ⟨?_, ?_, ?_, ?_, ?_, ?_⟩
  · rw [abs_le]
    exact ⟨by linarith [c2_w1_bounds.1], by linarith [c2_w1_bounds.2]⟩
  · rw [abs_le]
    exact ⟨by linarith [c2_w2_bounds.1], by linarith [c2_w2_bounds.2]⟩
  · rw [abs_le]
    exact ⟨by linarith [c2_w3_bounds.1], by linarith [c2_w3_bounds.2]⟩
  · rw [abs_le]
    exact ⟨by linarith [c2_w4_bounds.1], by linarith [c2_w4_bounds.2]⟩
  · rw [update_oscillations_phase_coherence]
    simp [initOsc, calculate_phase_coherence]
  · exact update_oscillations_stability _ _

/-- Counterexample to C2 as stated: the fourth component after the
advance is at most `0.7348`, hence more than `1e-3` away from the
claim's expected `0.739`. -/
theorem claim_C2_counterexample :
    ¬(|(update_oscillations (initOsc "p" defaultParams) 0.016).current_state.w4_mass
        - 0.739| ≤ 1/1000) := by
  intro h
  rw [abs_le] at h
  linarith [c2_w4_bounds.2, h.1]

end Tetracore
